import Mathlib

/-!
Shallow embedding of `cobalt-mysql-pool` (src/cobalt-mysql-pool.c and its
header).  The pool is a fixed array of `DB_POOL_CONN_COUNT` MySQL connection
slots with parallel busy flags, a counting semaphore `db_sem` as admission
gate, a mutex guarding the slot arrays, a read/write lock guarding the
`is_open`/`is_closed` flags, and a sticky `err_last` diagnostic.

Modelling conventions:
* Connection handles (`MYSQL *`) are `Option Nat`: `none` is the C `NULL`
  pointer, `some n` a non-null pointer identified by `n`.
* Fallible POSIX / MySQL primitives are driven by explicit environment
  records (one `Bool` per call site, plus a time model for
  `pthread_mutex_timedlock`): the embedding is a pure function of the
  pool state and that environment.
* `sem_wait` on a semaphore with count `0` blocks; in this sequential
  embedding no concurrent `sem_post` can arrive, so the outcome is a
  distinguished `blocked` result.  The one interleaving the source itself
  guards against (a concurrent `db_close` flipping the flags while
  `db_get_conn` waits, lines 418-432) is modelled by the
  `close_during_wait` environment flag.
-/

/-- `#define DB_POOL_CONN_COUNT (8U)` from the header. -/
abbrev DB_POOL_CONN_COUNT : Nat := 8

/-- `#define DEFAULT_MUTEX_TIMEOUT_SEC (30)` from the header. -/
abbrev DEFAULT_MUTEX_TIMEOUT_SEC : Nat := 30

/-- Slot index into the pool arrays. -/
abbrev Slot := Fin DB_POOL_CONN_COUNT

/-- The static error-message strings `err_*` of cobalt-mysql-pool.c
(lines 35-54), one constructor per distinct C string object. -/
inductive ErrMsg where
  | not_inited
  | not_thread_safe
  | not_open
  | input
  | unknown
  | init_lib
  | init_mutex
  | init_rwlock
  | init_semaphore
  | connect
  | reconnect
  | init
  | ping
  | mutex
  | rwlock
  | semaphore_wait
  | semaphore_post
  | clock_gettime
  | no_free_slot_bug
  | no_busy_slot_bug
deriving DecidableEq, Repr

/-- The global state of the module: `err_last`, the four status flags,
the two parallel slot arrays `mysql_conns` / `mysql_conns_busy`
(lines 63-64) and the current count of the `db_sem` semaphore. -/
structure PoolState where
  err_last : Option ErrMsg
  is_thread_safe : Bool
  is_inited : Bool
  is_open : Bool
  is_closed : Bool
  mysql_conns : Slot → Option Nat
  mysql_conns_busy : Slot → Bool
  db_sem : Nat
deriving DecidableEq

/-- The state at process start: flags cleared (`is_open = 0`,
`is_closed = 1`), both slot arrays zeroed, semaphore not yet created. -/
def initState : PoolState :=
  { err_last := none
    is_thread_safe := false
    is_inited := false
    is_open := false
    is_closed := true
    mysql_conns := fun _ => none
    mysql_conns_busy := fun _ => false
    db_sem := 0 }

/-- The `for (i = 0U; i < DB_POOL_CONN_COUNT; i++) { if (p(i)) break; }`
scan pattern used by `db_get_conn` and `db_post_conn`: return the first
index `i ≥ start` satisfying `p`, scanning in increasing index order.
`fuel` is the number of remaining iterations (`DB_POOL_CONN_COUNT - start`
at the call sites). -/
def scanIdx (p : Slot → Bool) : Nat → Nat → Option Slot
  | 0, _ => none
  | fuel + 1, start =>
    if h : start < DB_POOL_CONN_COUNT then
      if p ⟨start, h⟩ then some ⟨start, h⟩ else scanIdx p fuel (start + 1)
    else none

/-- `db_error` (lines 111-137).  The `rdlock_ok` argument models the
return value of `pthread_rwlock_rdlock(&db_rw_lock)` at line 125. -/
def db_error (rdlock_ok : Bool) (s : PoolState) : ErrMsg :=
  match s.err_last with
  | some e => e
  | none =>
    if s.is_thread_safe = false then .not_thread_safe
    else if s.is_inited = false then .not_inited
    else if rdlock_ok = false then .rwlock
    else if s.is_open = false then .not_open
    else .unknown

/-- Modelled from the spec's words (section 4.4, `last_error()`): the
precedence order "explicit sticky error > not-thread-safe >
not-initialized > not-open > unknown/no-error".  Used only to compare
against `db_error` as transcribed from the source. -/
def db_error_spec (s : PoolState) : ErrMsg :=
  match s.err_last with
  | some e => e
  | none =>
    if s.is_thread_safe = false then .not_thread_safe
    else if s.is_inited = false then .not_inited
    else if s.is_open = false then .not_open
    else .unknown

/-- Environment for one `db_get_conn` call: the outcome of each fallible
primitive it invokes, in source order (lines 366-457).  `now` is the
`clock_gettime` reading; `mutex_avail_at` is the earliest instant at which
`db_mutex` could be obtained (`none` = never), so `pthread_mutex_timedlock`
with deadline `now + DEFAULT_MUTEX_TIMEOUT_SEC` succeeds iff
`mutex_avail_at = some t` with `t ≤ now + DEFAULT_MUTEX_TIMEOUT_SEC`.
`close_during_wait` models a concurrent `db_close` flipping the state
flags while this call was waiting (the situation the re-check at
lines 418-432 exists for). -/
structure GetConnEnv where
  rd1_ok : Bool
  sem_wait_ok : Bool
  close_during_wait : Bool
  clock_ok : Bool
  now : Nat
  mutex_avail_at : Option Nat
  rd2_ok : Bool
deriving DecidableEq

/-- Result of `pthread_mutex_timedlock(&db_mutex, &tmo_timespec)` at
line 405, with `tmo_timespec = now + DEFAULT_MUTEX_TIMEOUT_SEC`. -/
def mutex_timedlock_ok (env : GetConnEnv) : Bool :=
  match env.mutex_avail_at with
  | none => false
  | some t => decide (t ≤ env.now + DEFAULT_MUTEX_TIMEOUT_SEC)

/-- Outcome of `db_get_conn`: either a returned `MYSQL *` value (`none`
is the C `NULL` return), or the call never returns because `sem_wait`
blocks forever on an empty semaphore. -/
inductive GetConnOutcome where
  | ret (conn : Option Nat)
  | blocked
deriving DecidableEq, Repr

/-- The body of `db_get_conn` after the successful `sem_wait`
(lines 396-456), transcribed branch by branch.  Note two peculiarities of
the source, reproduced faithfully here: the `pthread_rwlock_rdlock`
failure branch at lines 413-416 returns without `sem_post` (and without
unlocking `db_mutex`); and the free-slot scan at lines 436-442 sets
`mysql_conns_busy[i] = 1` before reading `mysql_conns[i]`, so when the
first free slot holds a NULL connection the no-free-slot error path at
lines 444-451 leaves that busy flag set. -/
def db_get_conn_locked (env : GetConnEnv) (s2 : PoolState) : GetConnOutcome × PoolState :=
  if env.clock_ok = false then
    (.ret none, { s2 with err_last := some .clock_gettime, db_sem := s2.db_sem + 1 })
  else if mutex_timedlock_ok env = false then
    (.ret none, { s2 with err_last := some .mutex, db_sem := s2.db_sem + 1 })
  else if env.rd2_ok = false then
    (.ret none, { s2 with err_last := some .rwlock })
  else if s2.is_open = false then
    (.ret none, { s2 with err_last := some .not_open, db_sem := s2.db_sem + 1 })
  else
    match scanIdx (fun i => !s2.mysql_conns_busy i) DB_POOL_CONN_COUNT 0 with
    | none =>
      (.ret none, { s2 with err_last := some .no_free_slot_bug, db_sem := s2.db_sem + 1 })
    | some i =>
      match s2.mysql_conns i with
      | none =>
        (.ret none, { s2 with
                       mysql_conns_busy := Function.update s2.mysql_conns_busy i true
                       err_last := some .no_free_slot_bug
                       db_sem := s2.db_sem + 1 })
      | some c =>
        (.ret (some c),
          { s2 with mysql_conns_busy := Function.update s2.mysql_conns_busy i true })

/-- `db_get_conn` (lines 366-457).  The portion after the successful
`sem_wait` is `db_get_conn_locked`, entered with the permit consumed and,
when a concurrent `db_close` interleaved during the wait, with the state
flags already flipped by it. -/
def db_get_conn (env : GetConnEnv) (s : PoolState) : GetConnOutcome × PoolState :=
  if s.is_inited = false then (.ret none, { s with err_last := some .init })
  else if env.rd1_ok = false then (.ret none, { s with err_last := some .rwlock })
  else if s.is_open = false then (.ret none, { s with err_last := some .not_open })
  else if s.db_sem = 0 then (.blocked, s)
  else if env.sem_wait_ok = false then
    (.ret none, { s with err_last := some .semaphore_wait })
  else if env.close_during_wait then
    db_get_conn_locked env
      { s with db_sem := s.db_sem - 1, is_open := false, is_closed := true }
  else db_get_conn_locked env { s with db_sem := s.db_sem - 1 }

/-- Environment for one `db_post_conn` call (lines 459-503). -/
structure PostConnEnv where
  mutex_ok : Bool
  sem_post_ok : Bool
deriving DecidableEq

/-- `db_post_conn` (lines 459-503): reject when uninitialized or when the
handle is NULL, then store the handle into the first busy slot in index
order, clear that busy flag, and post one permit back to the gate. -/
def db_post_conn (env : PostConnEnv) (mysql_conn : Option Nat) (s : PoolState) :
    Int × PoolState :=
  if s.is_inited = false then (-1, { s with err_last := some .init })
  else if mysql_conn = none then (-1, { s with err_last := some .input })
  else if env.mutex_ok = false then (-1, { s with err_last := some .mutex })
  else
    match scanIdx (fun i => s.mysql_conns_busy i) DB_POOL_CONN_COUNT 0 with
    | none => (-1, { s with err_last := some .no_busy_slot_bug })
    | some i =>
      if env.sem_post_ok = false then
        (-1, { s with mysql_conns := Function.update s.mysql_conns i mysql_conn
                      mysql_conns_busy := Function.update s.mysql_conns_busy i false
                      err_last := some .semaphore_post })
      else
        (0, { s with mysql_conns := Function.update s.mysql_conns i mysql_conn
                     mysql_conns_busy := Function.update s.mysql_conns_busy i false
                     db_sem := s.db_sem + 1 })

/-- Environment for one `db_open` call (lines 139-255): the one-time
initialization block's outcomes, the `db_mutex` lock, the per-slot
connection factory (`connect_ok i` is the combined success of
`mysql_init` / `mysql_options` / `mysql_real_connect` / `mysql_autocommit`
for slot `i`, and `fresh i` identifies the new non-null `MYSQL *` it
produces), the per-slot `mysql_ping` outcome on reuse, and the state
write-lock. -/
structure OpenEnv where
  thread_safe : Bool
  lib_init_ok : Bool
  mutex_init_ok : Bool
  rwlock_init_ok : Bool
  sem_init_ok : Bool
  mutex_ok : Bool
  connect_ok : Slot → Bool
  fresh : Slot → Nat
  ping_ok : Slot → Bool
  wrlock_ok : Bool

/-- The slot-fill loop of `db_open` (lines 189-238).  `start` is the loop
index `i`; `fuel` counts the remaining iterations
(`DB_POOL_CONN_COUNT - start` at the call site).  An empty slot is filled
by the factory; on factory failure the rollback loop at lines 205-216
closes and clears every slot from `start` down to `0` and the call fails
with `err_connect`.  A non-empty slot is pinged; on ping failure the call
fails with `err_reconnect` and nothing is rolled back. -/
def fillFrom (env : OpenEnv) : Nat → Nat → PoolState → Int × PoolState
  | 0, _, s => (0, s)
  | fuel + 1, start, s =>
    if h : start < DB_POOL_CONN_COUNT then
      match s.mysql_conns ⟨start, h⟩ with
      | none =>
        if env.connect_ok ⟨start, h⟩ then
          fillFrom env fuel (start + 1)
            { s with mysql_conns :=
                Function.update s.mysql_conns ⟨start, h⟩ (some (env.fresh ⟨start, h⟩)) }
        else
          (-1, { s with
                  mysql_conns := fun j => if (j : Nat) ≤ start then none else s.mysql_conns j
                  err_last := some .connect })
      | some _ =>
        if env.ping_ok ⟨start, h⟩ then fillFrom env fuel (start + 1) s
        else (-1, { s with err_last := some .reconnect })
    else (0, s)

/-- The part of `db_open` after the one-time initialization block: take
`db_mutex` (line 184), fill or revalidate every slot, then flip the state
flags to open under the write lock (lines 240-254). -/
def db_open_locked (env : OpenEnv) (s : PoolState) : Int × PoolState :=
  if env.mutex_ok = false then (-1, { s with err_last := some .mutex })
  else
    let r := fillFrom env DB_POOL_CONN_COUNT 0 s
    if r.1 = 0 then
      if env.wrlock_ok = false then (-1, { r.2 with err_last := some .rwlock })
      else (0, { r.2 with is_open := true, is_closed := false })
    else r

/-- `db_open` (lines 139-255).  On the very first call (lines 150-182) it
checks thread safety (setting the sticky `is_thread_safe` flag, with no
`err_last` on that failure path), initializes the library, the mutex, the
rw-lock and the semaphore (`sem_init(&db_sem, 0, DB_POOL_CONN_COUNT)`
sets the gate count to `DB_POOL_CONN_COUNT`), and sets `is_inited`. -/
def db_open (env : OpenEnv) (s : PoolState) : Int × PoolState :=
  if s.is_inited = false then
    if env.thread_safe = false then (-1, { s with is_thread_safe := false })
    else if env.lib_init_ok = false then
      (-1, { s with is_thread_safe := true, err_last := some .init_lib })
    else if env.mutex_init_ok = false then
      (-1, { s with is_thread_safe := true, err_last := some .init_mutex })
    else if env.rwlock_init_ok = false then
      (-1, { s with is_thread_safe := true, err_last := some .init_rwlock })
    else if env.sem_init_ok = false then
      (-1, { s with is_thread_safe := true, err_last := some .init_semaphore })
    else
      db_open_locked env
        { s with is_thread_safe := true, is_inited := true, db_sem := DB_POOL_CONN_COUNT }
  else db_open_locked env s

/-- Environment for one `db_close` call (lines 257-325). -/
structure CloseEnv where
  wrlock_ok : Bool
  mutex_ok : Bool
  sem_wait_ok : Bool
deriving DecidableEq

/-- Outcome of `db_close`: either the returned `int`, or the call never
returns because the drain loop waits forever. -/
inductive CloseOutcome where
  | ret (r : Int)
  | blocked
deriving DecidableEq, Repr

/-- `db_close` (lines 257-325): reject when uninitialized; succeed
immediately when already closed; otherwise flip the flags to
`is_open = 0`, `is_closed = 1` under the write lock and enter the drain
loop (lines 297-322), which re-scans the busy flags under `db_mutex` and
does `sem_wait(&db_sem)` whenever a busy slot is found.  In this
sequential embedding no concurrent release can arrive during the drain,
so when a busy slot exists the loop consumes the remaining permits and
then blocks forever; the source never destroys or clears
`mysql_conns`. -/
def db_close (env : CloseEnv) (s : PoolState) : CloseOutcome × PoolState :=
  if s.is_inited = false then (.ret (-1), { s with err_last := some .init })
  else if env.wrlock_ok = false then (.ret (-1), { s with err_last := some .rwlock })
  else if s.is_closed = true then (.ret 0, s)
  else if env.mutex_ok = false then
    (.ret (-1), { s with is_open := false, is_closed := true, err_last := some .mutex })
  else
    match scanIdx (fun i => s.mysql_conns_busy i) DB_POOL_CONN_COUNT 0 with
    | none => (.ret 0, { s with is_open := false, is_closed := true })
    | some _ =>
      if env.sem_wait_ok = false then
        (.ret (-1), { s with is_open := false
                             is_closed := true
                             err_last := some .semaphore_wait })
      else (.blocked, { s with is_open := false, is_closed := true, db_sem := 0 })

/-- One pool operation for the acquire/release traces of claim C6. -/
inductive PoolOp where
  | get (env : GetConnEnv)
  | post (env : PostConnEnv) (mysql_conn : Option Nat)

/-- State reached after one pool operation. -/
def applyOp (op : PoolOp) (s : PoolState) : PoolState :=
  match op with
  | .get env => (db_get_conn env s).2
  | .post env c => (db_post_conn env c s).2

/-- State reached after a sequence of acquire/release operations. -/
def runOps : List PoolOp → PoolState → PoolState
  | [], s => s
  | op :: rest, s => runOps rest (applyOp op s)

/-- Number of slots whose busy flag is set. -/
def busyCount (s : PoolState) : Nat :=
  (Finset.univ.filter fun i : Slot => s.mysql_conns_busy i = true).card

/-- One lifecycle operation for the open/close traces of claim C8. -/
inductive LifecycleOp where
  | openOp (env : OpenEnv)
  | closeOp (env : CloseEnv)

/-- State reached after one lifecycle operation (for a `db_close` whose
drain blocks, the state already carries the flipped flags). -/
def applyLife (op : LifecycleOp) (s : PoolState) : PoolState :=
  match op with
  | .openOp env => (db_open env s).2
  | .closeOp env => (db_close env s).2

/-- State reached after a sequence of `db_open`/`db_close` calls. -/
def runLife : List LifecycleOp → PoolState → PoolState
  | [], s => s
  | op :: rest, s => runLife rest (applyLife op s)

/-!  Concrete fixtures used by witnesses and counterexamples. -/

/-- Environment for `db_get_conn` in which every primitive succeeds
immediately (the mutex is free at time `0`). -/
def getEnvOK : GetConnEnv :=
  { rd1_ok := true, sem_wait_ok := true, close_during_wait := false, clock_ok := true,
    now := 0, mutex_avail_at := some 0, rd2_ok := true }

/-- Environment for `db_post_conn` in which every primitive succeeds. -/
def postEnvOK : PostConnEnv := { mutex_ok := true, sem_post_ok := true }

/-- Environment for `db_close` in which every primitive succeeds. -/
def closeEnvOK : CloseEnv := { wrlock_ok := true, mutex_ok := true, sem_wait_ok := true }

/-- An initialized, open, quiescent pool: every slot holds connection `1`,
no slot is busy, the gate is full. -/
def sOpenW : PoolState :=
  { err_last := none, is_thread_safe := true, is_inited := true, is_open := true,
    is_closed := false, mysql_conns := fun _ => some 1, mysql_conns_busy := fun _ => false,
    db_sem := DB_POOL_CONN_COUNT }

/-- An initialized, open pool with all eight handles lent out: every busy
flag set and the gate empty. -/
def sAllBusyW : PoolState :=
  { sOpenW with db_sem := 0, mysql_conns_busy := fun _ => true }

/-- For C3: a `db_get_conn` environment in which the post-gate
`pthread_rwlock_rdlock` at line 413 fails and everything else
succeeds. -/
def getEnvRd2Fail : GetConnEnv := { getEnvOK with rd2_ok := false }

/-- For C3: `sOpenW` with three handles lent out (gate count 5). -/
def sFiveLeft : PoolState := { sOpenW with db_sem := 5 }

/-- For C4: an open pool with slot 0 lending connection `10` and slot 1
lending connection `20` (both busy), all other slots free. -/
def sTwoBusyW : PoolState :=
  { sOpenW with
      mysql_conns := fun i => if i = 0 then some 10 else if i = 1 then some 20 else some 1
      mysql_conns_busy := fun i => decide (i ≤ 1)
      db_sem := 6 }

/-- For C10: an initialized, open pool whose slots all hold NULL
connection pointers (no slot busy, full gate). -/
def sNullConnsW : PoolState := { sOpenW with mysql_conns := fun _ => none }

/-- For C5: an initialized pool whose slots are all empty (the state after
the one-time initialization, before any slot was ever filled). -/
def sInitedEmptyW : PoolState :=
  { initState with is_inited := true, is_thread_safe := true, db_sem := DB_POOL_CONN_COUNT }

/-- For C5: a `db_open` environment in which the connection factory
succeeds for slots 0 and 1 and fails for slot 2, everything else
succeeding. -/
def openEnvFailAt2 : OpenEnv :=
  { thread_safe := true, lib_init_ok := true, mutex_init_ok := true, rwlock_init_ok := true,
    sem_init_ok := true, mutex_ok := true, connect_ok := fun i => decide ((i : Nat) < 2),
    fresh := fun i => 100 + (i : Nat), ping_ok := fun _ => true, wrlock_ok := true }

/-!  Helper lemmas about the index scan and the slot-fill loop. -/

/-- If the scan finds index `t`, then `p t` holds, `t` is at or after the
start index, and no index from `start` up to `t` satisfies `p`:
the scan returns the first hit in increasing index order. -/
theorem scanIdx_some_spec (p : Slot → Bool) :
    ∀ fuel start (t : Slot), scanIdx p fuel start = some t →
      p t = true ∧ start ≤ (t : Nat) ∧
        ∀ j : Slot, start ≤ (j : Nat) → (j : Nat) < (t : Nat) → p j = false := by
  intro fuel
  induction fuel with
  | zero => intro start t h; simp [scanIdx] at h
  | succ n ih =>
    intro start t h
    unfold scanIdx at h
    split at h
    · rename_i hlt
      split at h
      · rename_i hp
        injection h with h'
        subst h'
        exact ⟨hp, le_rfl, fun j hj1 hj2 => by simp only [Fin.val_mk] at hj2; omega⟩
      · rename_i hp
        obtain ⟨h1, h2, h3⟩ := ih (start + 1) t h
        refine ⟨h1, by omega, fun j hj1 hj2 => ?_⟩
        rcases Nat.eq_or_lt_of_le hj1 with heq | hlt2
        · have hj : j = ⟨start, hlt⟩ := Fin.ext heq.symm
          subst hj
          simpa using hp
        · exact h3 j hlt2 hj2
    · exact absurd h (by simp)

/-- Completeness of the scan: if `p t` holds and no earlier index at or
after `start` satisfies `p`, the scan returns `t`. -/
theorem scanIdx_complete (p : Slot → Bool) :
    ∀ fuel start (t : Slot), start + fuel = DB_POOL_CONN_COUNT →
      start ≤ (t : Nat) → p t = true →
      (∀ j : Slot, start ≤ (j : Nat) → (j : Nat) < (t : Nat) → p j = false) →
      scanIdx p fuel start = some t := by
  intro fuel
  induction fuel with
  | zero =>
    intro start t hfuel hle _ _
    exact absurd t.isLt (by omega)
  | succ n ih =>
    intro start t hfuel hle hp hmin
    have hlt : start < DB_POOL_CONN_COUNT := by have := t.isLt; omega
    unfold scanIdx
    rw [dif_pos hlt]
    by_cases hst : (t : Nat) = start
    · have ht : t = ⟨start, hlt⟩ := Fin.ext hst
      subst ht
      rw [if_pos hp]
    · have hlt2 : start < (t : Nat) := by omega
      have hps : p ⟨start, hlt⟩ = false := hmin ⟨start, hlt⟩ le_rfl hlt2
      rw [if_neg (by simp [hps])]
      exact ih (start + 1) t (by omega) (by omega) hp fun j hj1 hj2 => hmin j (by omega) hj2

/-- If no index satisfies `p`, the scan finds nothing. -/
theorem scanIdx_none_complete (p : Slot → Bool) (hall : ∀ j : Slot, p j = false) :
    ∀ fuel start, scanIdx p fuel start = none := by
  intro fuel
  induction fuel with
  | zero => intro start; rfl
  | succ n ih =>
    intro start
    unfold scanIdx
    split
    · rename_i hlt
      rw [if_neg (by simp [hall ⟨start, hlt⟩])]
      exact ih (start + 1)
    · rfl

/-- The slot-fill loop never touches the `is_open`/`is_closed` flags. -/
theorem fillFrom_flags (env : OpenEnv) :
    ∀ fuel start s, ((fillFrom env fuel start s).2.is_open = s.is_open ∧
      (fillFrom env fuel start s).2.is_closed = s.is_closed) := by
  intro fuel
  induction fuel with
  | zero => intro start s; exact ⟨rfl, rfl⟩
  | succ n ih =>
    intro start s
    unfold fillFrom
    split
    · rename_i hlt
      split
      · split
        · exact ih (start + 1) _
        · exact ⟨rfl, rfl⟩
      · split
        · exact ih (start + 1) s
        · exact ⟨rfl, rfl⟩
    · exact ⟨rfl, rfl⟩

/-- Behaviour of the fill loop when every slot from `start` up to `t` is
empty, the factory succeeds strictly before `t` and fails at `t`: the loop
returns `-1` with `err_connect`, every slot up to `t` cleared and every
later slot untouched. -/
theorem fillFrom_connect_fail (env : OpenEnv) :
    ∀ fuel start s (t : Slot), start + fuel = DB_POOL_CONN_COUNT →
      start ≤ (t : Nat) →
      (∀ j : Slot, start ≤ (j : Nat) → (j : Nat) ≤ (t : Nat) → s.mysql_conns j = none) →
      (∀ j : Slot, start ≤ (j : Nat) → (j : Nat) < (t : Nat) → env.connect_ok j = true) →
      env.connect_ok t = false →
      fillFrom env fuel start s =
        (-1, { s with
                mysql_conns := fun j => if (j : Nat) ≤ (t : Nat) then none else s.mysql_conns j
                err_last := some .connect }) := by
  intro fuel
  induction fuel with
  | zero =>
    intro start s t hfuel hle _ _ _
    exact absurd t.isLt (by omega)
  | succ n ih =>
    intro start s t hfuel hle hnone hok hfail
    have hlt : start < DB_POOL_CONN_COUNT := by have := t.isLt; omega
    have hcs : s.mysql_conns ⟨start, hlt⟩ = none :=
      hnone ⟨start, hlt⟩ le_rfl hle
    unfold fillFrom
    rw [dif_pos hlt]
    rw [hcs]
    by_cases hst : (t : Nat) = start
    · have ht : t = ⟨start, hlt⟩ := Fin.ext hst
      rw [← ht, if_neg (by simp [hfail]), ht]
    · have hlt2 : start < (t : Nat) := by omega
      have hok0 : env.connect_ok ⟨start, hlt⟩ = true := hok _ le_rfl hlt2
      rw [if_pos hok0]
      have hupd : ∀ j : Slot, start + 1 ≤ (j : Nat) →
          Function.update s.mysql_conns ⟨start, hlt⟩ (some (env.fresh ⟨start, hlt⟩)) j =
            s.mysql_conns j := by
        intro j hj
        refine Function.update_noteq ?_ _ _
        intro hj2
        rw [hj2] at hj
        simp only [Fin.val_mk] at hj
        omega
      rw [ih (start + 1) _ t (by omega) (by omega)
        (fun j hj1 hj2 => by
          show Function.update s.mysql_conns ⟨start, hlt⟩
            (some (env.fresh ⟨start, hlt⟩)) j = none
          rw [hupd j hj1]; exact hnone j (by omega) hj2)
        (fun j hj1 hj2 => hok j (by omega) hj2) hfail]
      have hfun :
          (fun j : Slot => if (j : Nat) ≤ (t : Nat) then none
            else Function.update s.mysql_conns ⟨start, hlt⟩
              (some (env.fresh ⟨start, hlt⟩)) j) =
          (fun j : Slot => if (j : Nat) ≤ (t : Nat) then none else s.mysql_conns j) := by
        funext j
        by_cases hj : (j : Nat) ≤ (t : Nat)
        · simp [hj]
        · simp only [if_neg hj]
          exact hupd j (by omega)
      rw [hfun]

/-- Claim C7: db_error() returns the diagnostic chosen by this precedence:
the sticky last error if one is set; otherwise the not-thread-safe message
if the thread-safe flag is unset; otherwise the not-initialized message if
the initialized flag is unset; otherwise the not-open message if the pool
is not open; otherwise the unknown/no-error message.  (Stated with the
state read-lock succeeding, the only case the claim describes.) -/
theorem db_error_precedence (s : PoolState) : db_error true s = db_error_spec s := by
  unfold db_error db_error_spec
  cases s.err_last with
  | some e => rfl
  | none => simp

/-- The `is_open`/`is_closed` outcome of `db_open_locked`: either the
flags were flipped to open, or they are exactly as before the call. -/
theorem db_open_locked_flags (env : OpenEnv) (s : PoolState) :
    ((db_open_locked env s).2.is_open = true ∧ (db_open_locked env s).2.is_closed = false) ∨
    ((db_open_locked env s).2.is_open = s.is_open ∧
      (db_open_locked env s).2.is_closed = s.is_closed) := by
  obtain ⟨ho, hc⟩ := fillFrom_flags env DB_POOL_CONN_COUNT 0 s
  simp only [db_open_locked]
  split_ifs with h1 h2 h3
  · right; exact ⟨rfl, rfl⟩
  · right; exact ⟨ho, hc⟩
  · left; exact ⟨rfl, rfl⟩
  · right; exact ⟨ho, hc⟩

/-- The `is_open`/`is_closed` outcome of `db_open`: either the flags were
flipped to open, or they are exactly as before the call. -/
theorem db_open_flags (env : OpenEnv) (s : PoolState) :
    ((db_open env s).2.is_open = true ∧ (db_open env s).2.is_closed = false) ∨
    ((db_open env s).2.is_open = s.is_open ∧ (db_open env s).2.is_closed = s.is_closed) := by
  unfold db_open
  split_ifs with h1 h2 h3 h4 h5 h6
  · right; exact ⟨rfl, rfl⟩
  · right; exact ⟨rfl, rfl⟩
  · right; exact ⟨rfl, rfl⟩
  · right; exact ⟨rfl, rfl⟩
  · right; exact ⟨rfl, rfl⟩
  · rcases db_open_locked_flags env
      { s with is_thread_safe := true, is_inited := true,
               db_sem := DB_POOL_CONN_COUNT } with h | h
    · left; exact h
    · right; exact ⟨h.1, h.2⟩
  · rcases db_open_locked_flags env s with h | h
    · left; exact h
    · right; exact h

/-- The `is_open` outcome of `db_close`: either `is_open` was cleared, or
both flags are exactly as before the call. -/
theorem db_close_flags (env : CloseEnv) (s : PoolState) :
    ((db_close env s).2.is_open = false) ∨
    ((db_close env s).2.is_open = s.is_open ∧ (db_close env s).2.is_closed = s.is_closed) := by
  unfold db_close
  split_ifs <;>
    first
      | (right; exact ⟨rfl, rfl⟩)
      | (left; rfl)
      | (left
         cases hscan : scanIdx (fun i => s.mysql_conns_busy i) DB_POOL_CONN_COUNT 0 <;> rfl)

/-- One `db_open`/`db_close` step preserves the property that `is_open`
and `is_closed` are not both set. -/
theorem applyLife_flags_ok (op : LifecycleOp) (s : PoolState)
    (h : ¬(s.is_open = true ∧ s.is_closed = true)) :
    ¬((applyLife op s).is_open = true ∧ (applyLife op s).is_closed = true) := by
  cases op with
  | openOp env =>
    simp only [applyLife]
    rcases db_open_flags env s with ⟨ho, hc⟩ | ⟨ho, hc⟩
    · rintro ⟨_, b⟩; rw [hc] at b; exact absurd b (by simp)
    · rintro ⟨a, b⟩; rw [ho] at a; rw [hc] at b; exact h ⟨a, b⟩
  | closeOp env =>
    simp only [applyLife]
    rcases db_close_flags env s with ho | ⟨ho, hc⟩
    · rintro ⟨a, _⟩; rw [ho] at a; exact absurd a (by simp)
    · rintro ⟨a, b⟩; rw [ho] at a; rw [hc] at b; exact h ⟨a, b⟩

/-- The not-both-flags property is preserved along any trace of
`db_open`/`db_close` calls. -/
theorem runLife_flags_ok :
    ∀ (ops : List LifecycleOp) (s : PoolState),
      ¬(s.is_open = true ∧ s.is_closed = true) →
      ¬((runLife ops s).is_open = true ∧ (runLife ops s).is_closed = true) := by
  intro ops
  induction ops with
  | nil => intro s h; exact h
  | cons op rest ih => intro s h; exact ih (applyLife op s) (applyLife_flags_ok op s h)

/-- Claim C8: In every state reachable from the initial state
(`is_open = 0`, `is_closed = 1`) by any sequence of `db_open` and
`db_close` calls (successful or failing), the combination `is_open = 1`
and `is_closed = 1` never occurs. -/
theorem open_close_never_both_set (ops : List LifecycleOp) :
    ¬((runLife ops initState).is_open = true ∧ (runLife ops initState).is_closed = true) :=
  runLife_flags_ok ops initState (by simp [initState])

/-- Claim C6: For every sequence of acquire (`db_get_conn`) and release
(`db_post_conn`) calls — in particular every sequence respecting the loan
discipline — the number of slots whose busy flag is set never exceeds
`DB_POOL_CONN_COUNT = 8` and never goes negative. -/
theorem busy_count_bounded (ops : List PoolOp) (s : PoolState) :
    busyCount (runOps ops s) ≤ DB_POOL_CONN_COUNT ∧
    (0 : Int) ≤ (busyCount (runOps ops s) : Int) := by
  constructor
  · have h := Finset.card_filter_le (Finset.univ : Finset Slot)
      (fun i => (runOps ops s).mysql_conns_busy i = true)
    simpa [busyCount] using h
  · exact Int.natCast_nonneg _

/-- Claim C9: release (`db_post_conn`) called with a null handle on an
initialized pool fails with the invalid-input error and leaves every
slot's connection and busy flag unchanged and does not post a permit to
the gate. -/
theorem db_post_conn_null_rejected (env : PostConnEnv) (s : PoolState)
    (h : s.is_inited = true) :
    db_post_conn env none s = (-1, { s with err_last := some .input }) ∧
    (db_post_conn env none s).2.mysql_conns = s.mysql_conns ∧
    (db_post_conn env none s).2.mysql_conns_busy = s.mysql_conns_busy ∧
    (db_post_conn env none s).2.db_sem = s.db_sem := by
  have heq : db_post_conn env none s = (-1, { s with err_last := some .input }) := by
    unfold db_post_conn
    rw [if_neg (by simp [h]), if_pos rfl]
  exact ⟨heq, by rw [heq], by rw [heq], by rw [heq]⟩

/-- Witness for C9 at a concrete initialized pool. -/
theorem db_post_conn_null_rejected_witness :
    sOpenW.is_inited = true ∧
    (db_post_conn postEnvOK none sOpenW =
        (-1, { sOpenW with err_last := some .input }) ∧
      (db_post_conn postEnvOK none sOpenW).2.mysql_conns = sOpenW.mysql_conns ∧
      (db_post_conn postEnvOK none sOpenW).2.mysql_conns_busy = sOpenW.mysql_conns_busy ∧
      (db_post_conn postEnvOK none sOpenW).2.db_sem = sOpenW.db_sem) :=
  ⟨rfl, db_post_conn_null_rejected postEnvOK sOpenW rfl⟩

/-- Claim C5: If `db_open` fails to create the connection for slot `t`
while slots `0..t-1` were filled in the same pass (all slots up to `t`
empty at entry, factory succeeding strictly before `t` and failing at
`t`), then the connections at slots `0..t-1` are destroyed and cleared,
slots after `t` are untouched, the pool state is not flipped to Open
(`is_open`/`is_closed` are left as they were before the call), and
`db_error` reports the connect-failed error. -/
theorem db_open_connect_fail_rollback (env : OpenEnv) (s : PoolState) (t : Slot)
    (h1 : s.is_inited = true) (h2 : env.mutex_ok = true)
    (h3 : ∀ j : Slot, (j : Nat) ≤ (t : Nat) → s.mysql_conns j = none)
    (h4 : ∀ j : Slot, (j : Nat) < (t : Nat) → env.connect_ok j = true)
    (h5 : env.connect_ok t = false) :
    (db_open env s).1 = -1 ∧
    (∀ j : Slot, (j : Nat) ≤ (t : Nat) → (db_open env s).2.mysql_conns j = none) ∧
    (∀ j : Slot, (t : Nat) < (j : Nat) →
      (db_open env s).2.mysql_conns j = s.mysql_conns j) ∧
    (db_open env s).2.is_open = s.is_open ∧
    (db_open env s).2.is_closed = s.is_closed ∧
    (db_open env s).2.err_last = some .connect ∧
    db_error true (db_open env s).2 = .connect := by
  have hfill := fillFrom_connect_fail env DB_POOL_CONN_COUNT 0 s t rfl (Nat.zero_le _)
    (fun j _ hj => h3 j hj) (fun j _ hj => h4 j hj) h5
  have hopen : db_open env s =
      (-1, { s with
              mysql_conns := fun j => if (j : Nat) ≤ (t : Nat) then none else s.mysql_conns j
              err_last := some .connect }) := by
    unfold db_open db_open_locked
    rw [if_neg (by simp [h1]), if_neg (by simp [h2]), hfill]
    rfl
  refine ⟨by rw [hopen], fun j hj => ?_, fun j hj => ?_,
    by rw [hopen], by rw [hopen], by rw [hopen], by rw [hopen]; rfl⟩
  · rw [hopen]; simp [hj]
  · rw [hopen]; simp [Nat.not_le.mpr hj]

/-- Witness for C5: the factory fails at slot 2 of an initialized pool
with all slots empty; slots 0 and 1 end cleared, the state flags keep
their pre-call values and `db_error` reports the connect error. -/
theorem db_open_connect_fail_rollback_witness :
    (db_open openEnvFailAt2 sInitedEmptyW).1 = -1 ∧
    (db_open openEnvFailAt2 sInitedEmptyW).2.mysql_conns 0 = none ∧
    (db_open openEnvFailAt2 sInitedEmptyW).2.mysql_conns 1 = none ∧
    (db_open openEnvFailAt2 sInitedEmptyW).2.is_open = sInitedEmptyW.is_open ∧
    (db_open openEnvFailAt2 sInitedEmptyW).2.is_closed = sInitedEmptyW.is_closed ∧
    db_error true (db_open openEnvFailAt2 sInitedEmptyW).2 = .connect := by
  obtain ⟨a, b, _, d, e, _, g⟩ :=
    db_open_connect_fail_rollback openEnvFailAt2 sInitedEmptyW 2 rfl rfl
      (fun j _ => rfl) (fun j hj => decide_eq_true hj) (by decide)
  exact ⟨a, b 0 (by decide), b 1 (by decide), d, e, g⟩

/-- Counterexample for C4: in a pool where slot 0 lent connection `10`
and slot 1 lent connection `20`, releasing handle `20` frees slot 0 and
stores the handle there, while slot 1 — the slot whose lent connection
matches the returned handle — stays busy. -/
theorem db_post_conn_wrong_slot_cex :
    sTwoBusyW.mysql_conns 1 = some 20 ∧
    sTwoBusyW.mysql_conns_busy 1 = true ∧
    (db_post_conn postEnvOK (some 20) sTwoBusyW).1 = 0 ∧
    (db_post_conn postEnvOK (some 20) sTwoBusyW).2.mysql_conns_busy 1 = true ∧
    (db_post_conn postEnvOK (some 20) sTwoBusyW).2.mysql_conns_busy 0 = false ∧
    (db_post_conn postEnvOK (some 20) sTwoBusyW).2.mysql_conns 0 = some 20 := by
  decide

/-- Claim C4 as amended: a successful release on an initialized pool
frees the first busy slot in index order and stores the returned handle
into that slot (release does not match by handle identity). -/
theorem db_post_conn_frees_first_busy (env : PostConnEnv) (c : Nat) (s : PoolState)
    (i : Slot) (h1 : s.is_inited = true) (h2 : env.mutex_ok = true)
    (h3 : env.sem_post_ok = true) (h4 : s.mysql_conns_busy i = true)
    (h5 : ∀ j : Slot, (j : Nat) < (i : Nat) → s.mysql_conns_busy j = false) :
    db_post_conn env (some c) s =
      (0, { s with
             mysql_conns := Function.update s.mysql_conns i (some c)
             mysql_conns_busy := Function.update s.mysql_conns_busy i false
             db_sem := s.db_sem + 1 }) := by
  have hscan : scanIdx (fun j => s.mysql_conns_busy j) DB_POOL_CONN_COUNT 0 = some i :=
    scanIdx_complete _ DB_POOL_CONN_COUNT 0 i rfl (Nat.zero_le _) h4
      (fun j _ hj => h5 j hj)
  unfold db_post_conn
  rw [if_neg (by simp [h1]), if_neg (by simp), if_neg (by simp [h2]), hscan]
  dsimp only
  rw [if_neg (by simp [h3])]

/-- Witness for the amended C4 at the concrete two-busy-slot pool. -/
theorem db_post_conn_frees_first_busy_witness :
    db_post_conn postEnvOK (some 20) sTwoBusyW =
      (0, { sTwoBusyW with
             mysql_conns := Function.update sTwoBusyW.mysql_conns 0 (some 20)
             mysql_conns_busy := Function.update sTwoBusyW.mysql_conns_busy 0 false
             db_sem := sTwoBusyW.db_sem + 1 }) :=
  db_post_conn_frees_first_busy postEnvOK 20 sTwoBusyW 0 rfl rfl rfl (by decide)
    (fun j hj => absurd hj (by simp))

/-- Claim C3 (the code bug it exposes): on an initialized, open pool with
gate count 5, a `db_get_conn` call that consumes a gate permit and then
fails at the post-gate `pthread_rwlock_rdlock` (line 413) returns NULL
with the rw-lock error but does not post the permit back: the gate count
drops from 5 to 4. -/
theorem db_get_conn_rwlock_fail_leaks_permit :
    sFiveLeft.db_sem = 5 ∧
    (db_get_conn getEnvRd2Fail sFiveLeft).1 = .ret none ∧
    (db_get_conn getEnvRd2Fail sFiveLeft).2.err_last = some .rwlock ∧
    (db_get_conn getEnvRd2Fail sFiveLeft).2.db_sem = 4 := by
  decide

/-- Counterexample for C2: on an initialized, open pool with all eight
handles lent out (gate count 0), `db_get_conn` blocks forever in
`sem_wait` — it does not fail with any timeout error, and no time bound
applies to the gate wait. -/
theorem db_get_conn_gate_wait_blocks_cex :
    sAllBusyW.db_sem = 0 ∧
    db_get_conn getEnvOK sAllBusyW = (.blocked, sAllBusyW) := by
  decide

/-- Claim C2 as amended: the gate wait of `db_get_conn` is an unbounded
plain `sem_wait`: with no permit available the call blocks indefinitely
(first conjunct).  The configured timeout `DEFAULT_MUTEX_TIMEOUT_SEC`
(30 s) instead bounds the subsequent `pthread_mutex_timedlock` on the
slot-table mutex: if the mutex does not become available within
`now + DEFAULT_MUTEX_TIMEOUT_SEC`, the call fails with the mutex error
and the gate permit is posted back (second conjunct). -/
theorem db_get_conn_gate_unbounded_mutex_timed (env : GetConnEnv) (s : PoolState)
    (h1 : s.is_inited = true) (h2 : env.rd1_ok = true) (h3 : s.is_open = true) :
    (s.db_sem = 0 → db_get_conn env s = (.blocked, s)) ∧
    (s.db_sem ≠ 0 → env.sem_wait_ok = true → env.clock_ok = true →
      mutex_timedlock_ok env = false →
        (db_get_conn env s).1 = .ret none ∧
        (db_get_conn env s).2.err_last = some .mutex ∧
        (db_get_conn env s).2.db_sem = s.db_sem) := by
  constructor
  · intro h0
    unfold db_get_conn
    rw [if_neg (by simp [h1]), if_neg (by simp [h2]), if_neg (by simp [h3]), if_pos h0]
  · intro h0 hw hc hm
    unfold db_get_conn db_get_conn_locked
    rw [if_neg (by simp [h1]), if_neg (by simp [h2]), if_neg (by simp [h3]), if_neg h0,
      if_neg (by simp [hw])]
    by_cases hcd : env.close_during_wait
    · rw [if_pos hcd, if_neg (by simp [hc]), if_pos hm]
      refine ⟨rfl, rfl, ?_⟩
      show s.db_sem - 1 + 1 = s.db_sem
      omega
    · rw [if_neg hcd, if_neg (by simp [hc]), if_pos hm]
      refine ⟨rfl, rfl, ?_⟩
      show s.db_sem - 1 + 1 = s.db_sem
      omega

/-- Witness for the amended C2 at the concrete all-busy pool. -/
theorem db_get_conn_gate_unbounded_mutex_timed_witness :
    sAllBusyW.is_inited = true ∧ getEnvOK.rd1_ok = true ∧ sAllBusyW.is_open = true ∧
    ((sAllBusyW.db_sem = 0 → db_get_conn getEnvOK sAllBusyW = (.blocked, sAllBusyW)) ∧
      (sAllBusyW.db_sem ≠ 0 → getEnvOK.sem_wait_ok = true → getEnvOK.clock_ok = true →
        mutex_timedlock_ok getEnvOK = false →
          (db_get_conn getEnvOK sAllBusyW).1 = .ret none ∧
          (db_get_conn getEnvOK sAllBusyW).2.err_last = some .mutex ∧
          (db_get_conn getEnvOK sAllBusyW).2.db_sem = sAllBusyW.db_sem)) :=
  ⟨rfl, rfl, rfl,
    db_get_conn_gate_unbounded_mutex_timed getEnvOK sAllBusyW rfl rfl rfl⟩

/-- Counterexample for C1: a successful `db_close` on an initialized,
open, quiescent pool returns 0 and flips the flags, but slot 0 still
holds its connection afterwards — `db_close` never destroys or clears
`mysql_conns` (there is no `mysql_close` call in its body). -/
theorem db_close_conns_not_destroyed_cex :
    (db_close closeEnvOK sOpenW).1 = .ret 0 ∧
    (db_close closeEnvOK sOpenW).2.is_open = false ∧
    (db_close closeEnvOK sOpenW).2.is_closed = true ∧
    (db_close closeEnvOK sOpenW).2.mysql_conns 0 = some 1 ∧
    (db_close closeEnvOK sOpenW).2.mysql_conns 7 = some 1 := by
  decide

/-- Claim C1 as amended: after a successful `db_close` on an initialized,
open pool whose busy slots have drained, the state flags are flipped to
closed, the slot connections are left in place (not destroyed — they are
revalidated and reused by a later `db_open`), and a subsequent
`db_get_conn` fails with the not-open error. -/
theorem db_close_drains_and_blocks_acquire (env : CloseEnv) (genv : GetConnEnv)
    (s : PoolState) (h1 : s.is_inited = true) (h2 : env.wrlock_ok = true)
    (h3 : env.mutex_ok = true) (h4 : s.is_closed = false)
    (h5 : ∀ i : Slot, s.mysql_conns_busy i = false) (h6 : genv.rd1_ok = true) :
    db_close env s = (.ret 0, { s with is_open := false, is_closed := true }) ∧
    (db_close env s).2.mysql_conns = s.mysql_conns ∧
    db_get_conn genv (db_close env s).2 =
      (.ret none, { s with
                     is_open := false
                     is_closed := true
                     err_last := some .not_open }) := by
  have hclose : db_close env s = (.ret 0, { s with is_open := false, is_closed := true }) := by
    unfold db_close
    rw [if_neg (by simp [h1]), if_neg (by simp [h2]), if_neg (by simp [h4]),
      if_neg (by simp [h3]),
      scanIdx_none_complete (fun i => s.mysql_conns_busy i) h5 DB_POOL_CONN_COUNT 0]
  refine ⟨hclose, by rw [hclose], ?_⟩
  rw [hclose]
  unfold db_get_conn
  rw [if_neg (by simp [h1]), if_neg (by simp [h6]), if_pos rfl]

/-- Witness for the amended C1 at the concrete quiescent open pool. -/
theorem db_close_drains_and_blocks_acquire_witness :
    sOpenW.is_inited = true ∧ sOpenW.is_closed = false ∧
    (db_close closeEnvOK sOpenW =
        (.ret 0, { sOpenW with is_open := false, is_closed := true }) ∧
      (db_close closeEnvOK sOpenW).2.mysql_conns = sOpenW.mysql_conns ∧
      db_get_conn getEnvOK (db_close closeEnvOK sOpenW).2 =
        (.ret none, { sOpenW with
                       is_open := false
                       is_closed := true
                       err_last := some .not_open })) :=
  ⟨rfl, rfl,
    db_close_drains_and_blocks_acquire closeEnvOK getEnvOK sOpenW rfl rfl rfl rfl
      (fun _ => rfl) rfl⟩

/-- Busy-flag frame property of the post-gate body: whenever it returns
NULL, the busy flags are unchanged except on the path where the first
free slot (in index order) holds a NULL connection, in which case exactly
that slot's busy flag has been set. -/
theorem db_get_conn_locked_busy_frame (env : GetConnEnv) (s2 s' : PoolState)
    (h : db_get_conn_locked env s2 = (.ret none, s')) :
    s'.mysql_conns_busy = s2.mysql_conns_busy ∨
    (∃ i : Slot, s2.mysql_conns_busy i = false ∧
      (∀ j : Slot, (j : Nat) < (i : Nat) → s2.mysql_conns_busy j = true) ∧
      s2.mysql_conns i = none ∧
      s'.mysql_conns_busy = Function.update s2.mysql_conns_busy i true) := by
  unfold db_get_conn_locked at h
  split_ifs at h with h1 h2 h3 h4
  · rw [Prod.mk.injEq] at h; obtain ⟨_, h⟩ := h; subst h; left; rfl
  · rw [Prod.mk.injEq] at h; obtain ⟨_, h⟩ := h; subst h; left; rfl
  · rw [Prod.mk.injEq] at h; obtain ⟨_, h⟩ := h; subst h; left; rfl
  · rw [Prod.mk.injEq] at h; obtain ⟨_, h⟩ := h; subst h; left; rfl
  · cases hscan : scanIdx (fun i => !s2.mysql_conns_busy i) DB_POOL_CONN_COUNT 0 with
    | none =>
      simp only [hscan] at h
      rw [Prod.mk.injEq] at h; obtain ⟨_, h⟩ := h; subst h; left; rfl
    | some i =>
      simp only [hscan] at h
      cases hconns : s2.mysql_conns i with
      | none =>
        simp only [hconns] at h
        rw [Prod.mk.injEq] at h; obtain ⟨_, h⟩ := h; subst h
        right
        obtain ⟨hp, _, hmin⟩ := scanIdx_some_spec _ DB_POOL_CONN_COUNT 0 i hscan
        refine ⟨i, by simpa using hp, fun j hj => ?_, hconns, rfl⟩
        simpa using hmin j (Nat.zero_le _) hj
      | some c =>
        simp only [hconns] at h
        rw [Prod.mk.injEq] at h
        obtain ⟨hbad, _⟩ := h
        exact absurd hbad (by simp)

/-- Claim C10 as amended: whenever `db_get_conn` returns NULL, every
slot's busy flag is the same after the call as before it, except on the
no-free-slot error path reached when the first non-busy slot in index
order holds a null connection pointer — there that slot's busy flag has
been set (and is left set). -/
theorem db_get_conn_error_busy_frame (env : GetConnEnv) (s s' : PoolState)
    (h : db_get_conn env s = (.ret none, s')) :
    s'.mysql_conns_busy = s.mysql_conns_busy ∨
    (∃ i : Slot, s.mysql_conns_busy i = false ∧
      (∀ j : Slot, (j : Nat) < (i : Nat) → s.mysql_conns_busy j = true) ∧
      s.mysql_conns i = none ∧
      s'.mysql_conns_busy = Function.update s.mysql_conns_busy i true) := by
  unfold db_get_conn at h
  split_ifs at h with h1 h2 h3 h4 h5 h6
  · rw [Prod.mk.injEq] at h; obtain ⟨_, h⟩ := h; subst h; left; rfl
  · rw [Prod.mk.injEq] at h; obtain ⟨_, h⟩ := h; subst h; left; rfl
  · rw [Prod.mk.injEq] at h; obtain ⟨_, h⟩ := h; subst h; left; rfl
  · rw [Prod.mk.injEq] at h; obtain ⟨hbad, _⟩ := h; exact GetConnOutcome.noConfusion hbad
  · rw [Prod.mk.injEq] at h; obtain ⟨_, h⟩ := h; subst h; left; rfl
  · rcases db_get_conn_locked_busy_frame env _ s' h with hL | ⟨i, a, b, c2, d⟩
    · left; exact hL
    · right; exact ⟨i, a, b, c2, d⟩
  · rcases db_get_conn_locked_busy_frame env _ s' h with hL | ⟨i, a, b, c2, d⟩
    · left; exact hL
    · right; exact ⟨i, a, b, c2, d⟩

/-- Witness for the amended C10: an error return on an uninitialized
pool, where the busy flags are unchanged (left disjunct). -/
theorem db_get_conn_error_busy_frame_witness :
    db_get_conn getEnvOK initState =
      (.ret none, { initState with err_last := some ErrMsg.init }) ∧
    (({ initState with err_last := some ErrMsg.init } : PoolState).mysql_conns_busy =
        initState.mysql_conns_busy ∨
      (∃ i : Slot, initState.mysql_conns_busy i = false ∧
        (∀ j : Slot, (j : Nat) < (i : Nat) → initState.mysql_conns_busy j = true) ∧
        initState.mysql_conns i = none ∧
        ({ initState with err_last := some ErrMsg.init } : PoolState).mysql_conns_busy =
          Function.update initState.mysql_conns_busy i true)) :=
  ⟨by decide,
    db_get_conn_error_busy_frame getEnvOK initState
      { initState with err_last := some ErrMsg.init } (by decide)⟩

/-- Counterexample for C10 as stated: on an initialized, open pool whose
slots all hold NULL connections, `db_get_conn` returns NULL (the
no-free-slot error), yet slot 0's busy flag changed from clear to set. -/
theorem db_get_conn_null_conn_busy_change_cex :
    (db_get_conn getEnvOK sNullConnsW).1 = .ret none ∧
    sNullConnsW.mysql_conns_busy 0 = false ∧
    (db_get_conn getEnvOK sNullConnsW).2.mysql_conns_busy 0 = true ∧
    (db_get_conn getEnvOK sNullConnsW).2.err_last = some .no_free_slot_bug := by
  decide
